import Mathlib

/-!
Verification of the LockBox AI client (repository MATTBOX19/lockbox-ai)
against its natural-language specification.

The repository contains several near-duplicate variants of a single-page
client.  We embed, variant by variant, the state-transition behaviour of
the two cores the claims are about:

* the odds feed (`fetchOdds` in `src/srcv4/App.jsx`,
  `src/frontend/srcv4/App.jsx`, `src/unnamed/part_000`,
  `src/unnamed/part_001`, `src/unnamed/part_002`), and
* the per-game analysis (`analyzeGame` in `src/frontend/srcv4/App.jsx`,
  `src/unnamed/part_000`, `src/unnamed/part_002`, and `analyzePick` in
  `src/unnamed/part_001`).

JavaScript numbers are modelled as `Int` (American odds) and `ℚ`
(spreads, confidences, the `Math.random()` sample); `null`/`undefined`
fields are `Option`; a `fetch` whose promise rejects (network error) or
whose `res.json()` rejects (malformed body) is one constructor of an
outcome type, while a non-2xx status with a parseable JSON body is a
separate case because none of the `analyzeGame` variants check `res.ok`.
-/

namespace Lockbox

/-- JavaScript string-or with a string default: `v || d`.  `undefined`
(`none`) and the empty string are falsy, any other string is truthy. -/
def jsOrString (v : Option String) (d : String) : String :=
  match v with
  | none => d
  | some s => if s = "" then d else s

/-- A game record as delivered by `GET /odds/{sport}`:
`{ game, home_team, away_team, home_odds, away_odds, home_spread?,
away_spread?, commence }`.  A `null` or absent spread is `none`. -/
structure Game where
  game : String
  home_team : String
  away_team : String
  home_odds : Int
  away_odds : Int
  home_spread : Option ℚ
  away_spread : Option ℚ
  commence : String
deriving Repr, DecidableEq

/-- The body of a parseable `/odds` response: an object that may or may
not carry a `games` array. -/
structure OddsBody where
  games? : Option (List Game)
deriving Repr, DecidableEq

/-- Outcome of one odds fetch, as observable by the client code:
`networkError` covers a rejected `fetch(...)` promise; `http status body`
is a completed HTTP exchange, where `body = none` means `res.json()`
rejected (malformed body) and `body = some b` is the parsed JSON. -/
inductive OddsOutcome where
  | networkError
  | http (status : Nat) (body : Option OddsBody)
deriving Repr, DecidableEq

/-- JS `res.ok`: status in the 2xx range. -/
def resOk (status : Nat) : Bool := 200 ≤ status && status ≤ 299

/-- Component state touched by `fetchOdds` in `src/srcv4/App.jsx`:
`games`, `loading` and the `error` message string. -/
structure SrcV4State where
  games : List Game
  loading : Bool
  error : String
deriving Repr, DecidableEq

/-- The part of `fetchOdds` in `src/srcv4/App.jsx` that runs after its
`fetch` settles: `if (!res.ok) throw`; `data = await res.json()`;
`if (data.games) setGames(data.games) else setError("No games returned
from backend.")`; `catch → setError("Failed to load odds. Try again.")`;
`finally setLoading(false)`.  (An empty `games` array is a truthy JS
value, so only an absent or null `games` key takes the else branch.) -/
def applyOdds_srcv4 (s : SrcV4State) (r : OddsOutcome) : SrcV4State :=
  let s2 : SrcV4State :=
    match r with
    | .networkError => { s with error := "Failed to load odds. Try again." }
    | .http status body =>
      if resOk status then
        match body with
        | none => { s with error := "Failed to load odds. Try again." }
        | some b =>
          match b.games? with
          | some gs => { s with games := gs }
          | none => { s with error := "No games returned from backend." }
      else { s with error := "Failed to load odds. Try again." }
  { s2 with loading := false }

/-- `fetchOdds` of `src/srcv4/App.jsx` (lines 15–33), as a function from
the pre-state and the outcome of its single request to the post-state:
`setLoading(true); setError("")`, then the response is applied. -/
def fetchOdds_srcv4 (s : SrcV4State) (r : OddsOutcome) : SrcV4State :=
  applyOdds_srcv4 { s with loading := true, error := "" } r

/-- The requests issued by one `fetchOdds` call in `src/srcv4/App.jsx`
(and identically in `src/frontend/srcv4/App.jsx`, `part_000`,
`part_002`): a single GET to `/odds/{sport}`. -/
def fetchOdds_srcv4_requests (sport : String) : List String :=
  ["/odds/" ++ sport]

/-- Component state touched by the odds fetch in
`src/frontend/srcv4/App.jsx` (and `part_000`, `part_002`): these
variants keep no error-message state for the odds feed at all; we carry
a `userMessage` slot to record that no code path writes one
(`catch` only calls `console.error`). -/
structure FrontendOddsState where
  games : List Game
  loading : Bool
  userMessage : Option String
deriving Repr, DecidableEq

/-- `fetchOdds` of `src/frontend/srcv4/App.jsx` (lines 74–87): no
`res.ok` check, `setGames(data.games || [])` on a parsed body,
`catch → console.error` only, `finally setLoading(false)`. -/
def fetchOdds_frontend (s : FrontendOddsState) (r : OddsOutcome) :
    FrontendOddsState :=
  let s1 : FrontendOddsState := { s with loading := true }
  let s2 : FrontendOddsState :=
    match r with
    | .networkError => s1
    | .http _ none => s1
    | .http _ (some b) => { s1 with games := b.games?.getD [] }
  { s2 with loading := false }

/-- `fetchOdds` of `src/unnamed/part_000` (lines 13–25): like the
frontend variant but `catch` also empties the list (`setGames([])`);
still no user-visible message. -/
def fetchOdds_part000 (s : FrontendOddsState) (r : OddsOutcome) :
    FrontendOddsState :=
  let s1 : FrontendOddsState := { s with loading := true }
  let s2 : FrontendOddsState :=
    match r with
    | .networkError => { s1 with games := [] }
    | .http _ none => { s1 with games := [] }
    | .http _ (some b) => { s1 with games := b.games?.getD [] }
  { s2 with loading := false }

/-! ### Interleaving model of the odds feed (claim C1)

`src/srcv4/App.jsx` has no concurrency guard: each `fetchOdds` call
first runs its synchronous prefix (`setLoading(true); setError("")`,
dispatching the request), and whenever one of the outstanding requests
settles, its continuation applies the response to the then-current
state.  An execution is a list of these atomic events, folded over the
state.  The `call` tag on a `respond` event records which call the
response answers; the code itself has no access to it and ignores it. -/

/-- Atomic events of the unguarded `src/srcv4/App.jsx` odds feed. -/
inductive NGEvent where
  | call (idx : Nat)
  | respond (idx : Nat) (r : OddsOutcome)
deriving Repr, DecidableEq

/-- One atomic step of the unguarded feed: a `call` runs the
synchronous prefix of `fetchOdds`; a `respond` runs the continuation
`applyOdds_srcv4` on the current state, whichever call it answers. -/
def ngStep (s : SrcV4State) (e : NGEvent) : SrcV4State :=
  match e with
  | .call _ => { s with loading := true, error := "" }
  | .respond _ r => applyOdds_srcv4 s r

/-- Running a schedule of events of the unguarded feed from a state. -/
def ngRun (s : SrcV4State) (es : List NGEvent) : SrcV4State :=
  es.foldl ngStep s

/-! ### The guarded odds feed of `src/unnamed/part_001`

State and events of `fetchOdds` in `src/unnamed/part_001` (lines
19–49): an `inFlight` ref that makes a re-entrant call return at once,
a 300 ms debounce timer whose callback aborts the previous
`AbortController`, creates a fresh one and issues the fetch, and a
response continuation that skips `setError` when the rejection is an
`AbortError` and runs `finally { setLoading(false); inFlight.current =
false }`.  Note `setGames(data)` stores the whole parsed body, and the
request URL is `/odds?sport={sport}`. -/

/-- URL of the single request `fetchOdds` of `part_001` issues. -/
def fetchOdds_part001_url (sport : String) : String :=
  "/odds?sport=" ++ sport

/-- State of the `part_001` odds feed.  Controllers are numbered;
`issued` lists the ids whose fetch was actually dispatched and
`aborted` the ids whose controller was aborted. -/
structure P1State where
  inFlight : Bool
  timer : Bool
  ctrl : Option Nat
  nextId : Nat
  issued : List Nat
  aborted : List Nat
  games : Option OddsBody
  error : Option String
  loading : Bool
deriving Repr, DecidableEq

/-- Initial `part_001` state: nothing in flight, no data. -/
def p1init : P1State :=
  { inFlight := false, timer := false, ctrl := none, nextId := 0,
    issued := [], aborted := [], games := none, error := none,
    loading := false }

/-- Events of the `part_001` odds feed: a `fetchOdds()` invocation, the
debounce timer firing, and the settling of the fetch issued under a
given controller id. -/
inductive P1Event where
  | refresh
  | timerFire
  | respond (id : Nat) (r : OddsOutcome)
deriving Repr, DecidableEq

/-- One atomic step of the `part_001` odds feed. -/
def p1step (s : P1State) (e : P1Event) : P1State :=
  match e with
  | .refresh =>
    if s.inFlight then s
    else { s with inFlight := true, timer := true }
  | .timerFire =>
    if s.timer then
      let ab := match s.ctrl with
        | some c => s.aborted ++ [c]
        | none => s.aborted
      { s with timer := false, aborted := ab, ctrl := some s.nextId,
               nextId := s.nextId + 1, issued := s.issued ++ [s.nextId],
               loading := true, error := none }
    else s
  | .respond id r =>
    if id ∈ s.issued then
      if id ∈ s.aborted then
        { s with loading := false, inFlight := false }
      else
        let s1 : P1State :=
          match r with
          | .networkError =>
            { s with error := some "Failed to load odds. Try again." }
          | .http status body =>
            if resOk status then
              match body with
              | none =>
                { s with error := some "Failed to load odds. Try again." }
              | some b => { s with games := some b }
            else
              { s with error := some "Failed to load odds. Try again." }
        { s1 with loading := false, inFlight := false }
    else s

/-- Running a schedule of `part_001` events from the initial state. -/
def p1run (es : List P1Event) : P1State :=
  es.foldl p1step p1init

/-! ### The analysis coordinator (`analyzeGame`)

A parsed `/analyze` response body has optional fields
`pick, confidence, expected_value, spread_value, error`; the backend
answers `{error}` for an inapplicable market.  The `spread_value` field
is compared and defaulted with JS `||`, so it is modelled as a string
(the code only ever displays it). -/

/-- A parsed JSON body of a `POST /analyze` response. -/
structure PickJson where
  pick? : Option String
  confidence? : Option ℚ
  expected_value? : Option ℚ
  spread_value? : Option String
  error? : Option String
deriving Repr, DecidableEq

/-- Outcome of one `/analyze` request as seen by `analyzeGame`: `fail`
covers a rejected `fetch` (network error) and a rejected `res.json()`
(malformed body); `json b` is any response with a parseable body — the
code never checks `res.ok`, so a non-2xx status with a JSON body is
still the `json` case. -/
inductive ReqOutcome where
  | fail
  | json (b : PickJson)
deriving Repr, DecidableEq

/-- The `activePick` record the variants store with `setActivePick`:
absent JS fields are the defaults (`loading`/`error` absent = falsy). -/
structure ActivePick where
  game : String
  loading : Bool := false
  error : Bool := false
  moneyline : Option PickJson := none
  spread : Option PickJson := none
deriving Repr, DecidableEq

/-- The `{ error: "No spread market" }` literal that `analyzeGame` in
`src/unnamed/part_000` uses as the spread result when the game has no
spread line. -/
def noSpreadMarket : PickJson :=
  { pick? := none, confidence? := none, expected_value? := none,
    spread_value? := none, error? := some "No spread market" }

/-- `analyzeGame` of `src/unnamed/part_000` (lines 27–70): the final
`activePick` as a function of the game and the outcomes of the two
requests.  Both awaits sit in one `try`; a failing request jumps to
`catch`, which stores `{game, error: true, loading: false}`.  The
spread request is only made when `home_spread` is neither null nor
undefined. -/
def analyzeGame_part000 (g : Game) (mlOut spOut : ReqOutcome) : ActivePick :=
  match mlOut with
  | .fail => { game := g.game, error := true, loading := false }
  | .json mlData =>
    match g.home_spread with
    | none =>
      { game := g.game, loading := false, moneyline := some mlData,
        spread := some noSpreadMarket }
    | some _ =>
      match spOut with
      | .fail => { game := g.game, error := true, loading := false }
      | .json spData =>
        { game := g.game, loading := false, moneyline := some mlData,
          spread := some spData }

/-- The `/analyze` markets requested by one `analyzeGame` call in
`src/unnamed/part_000`, in order: `moneyline` always; `spread` only
when the moneyline await did not throw and the game has a spread. -/
inductive Market where
  | moneyline
  | spread
deriving Repr, DecidableEq

/-- Markets requested by `analyzeGame` of `part_000` (the moneyline
request is always issued; if it fails the function jumps to `catch`
before reaching the spread branch). -/
def analyzeGame_part000_requests (g : Game) (mlOut : ReqOutcome) :
    List Market :=
  Market.moneyline ::
    (match mlOut with
     | .fail => []
     | .json _ => if g.home_spread.isSome then [Market.spread] else [])

/-- `analyzeGame` of `src/frontend/srcv4/App.jsx` (lines 96–129): both
markets are requested unconditionally via `Promise.all`; if either
rejects, `catch` stores `{game, error: true}` (no `loading` field);
otherwise `atsData.spread_value = atsData.spread_value || "-3.5"` and
both results are stored. -/
def analyzeGame_frontend (g : Game) (mlOut spOut : ReqOutcome) : ActivePick :=
  match mlOut, spOut with
  | .json mlData, .json atsData =>
    { game := g.game, loading := false, moneyline := some mlData,
      spread := some { atsData with
        spread_value? := some (jsOrString atsData.spread_value? "-3.5") } }
  | _, _ => { game := g.game, error := true }

/-- Markets requested by one `analyzeGame` call in
`src/frontend/srcv4/App.jsx`: always both, whatever the game. -/
def analyzeGame_frontend_requests (_g : Game) : List Market :=
  [Market.moneyline, Market.spread]

/-- The atomic actions of one `analyzeGame` call, in program order. -/
inductive AnalyzeStep where
  | setPending
  | request (m : Market)
  | setResult
deriving Repr, DecidableEq

/-- Action trace of `analyzeGame` in `part_000`:
`setActivePick({game, loading: true})` is the first statement, each
request follows, and the final `setActivePick` (result or catch) comes
last. -/
def analyzeGame_part000_trace (g : Game) (mlOut : ReqOutcome) :
    List AnalyzeStep :=
  AnalyzeStep.setPending ::
    ((analyzeGame_part000_requests g mlOut).map AnalyzeStep.request
      ++ [AnalyzeStep.setResult])

/-- Action trace of `analyzeGame` in `src/frontend/srcv4/App.jsx`: the
pending write precedes the `Promise.all` dispatch of both requests. -/
def analyzeGame_frontend_trace (g : Game) : List AnalyzeStep :=
  AnalyzeStep.setPending ::
    ((analyzeGame_frontend_requests g).map AnalyzeStep.request
      ++ [AnalyzeStep.setResult])

/-! ### Interleaving model of the single `activePick` slot (claim C4)

In `src/frontend/srcv4/App.jsx` every `setActivePick` stamps the record
with `g.game` taken from the closure of the `analyzeGame` call that is
resolving, and the render shows the record on a card only under
`isActive = activePick && activePick.game === g.game`; the Analyze
button is `disabled={isActive && activePick.loading}`. -/

/-- Events on the `activePick` slot: a click of the Analyze button on a
card (which dispatches `analyzeGame(g)` only if the button is enabled),
and the completion of the awaited work of a previously dispatched
`analyzeGame(g)` (success or catch).  The `dispatch` tag on a
resolution records which click issued the work; the code has no access
to it and applies resolutions purely in arrival order. -/
inductive PickEvent where
  | click (g : Game)
  | resolveOk (dispatch : Nat) (g : Game) (mlData atsData : PickJson)
  | resolveErr (dispatch : Nat) (g : Game)
deriving Repr, DecidableEq

/-- Whether the Analyze button on the card of `g` is enabled:
`disabled={isActive && activePick.loading}`. -/
def clickEnabled (ap : Option ActivePick) (g : Game) : Bool :=
  match ap with
  | none => true
  | some p => !(p.game == g.game && p.loading)

/-- One step of the `activePick` slot in `src/frontend/srcv4/App.jsx`:
an enabled click stores the pending record for the clicked game; a
resolution stores its result under the game of the `analyzeGame` call
it belongs to (from the closure), not under whatever was clicked last. -/
def pickStep (ap : Option ActivePick) (e : PickEvent) : Option ActivePick :=
  match e with
  | .click g =>
    if clickEnabled ap g then some { game := g.game, loading := true }
    else ap
  | .resolveOk _ g mlData atsData =>
    some { game := g.game, loading := false, moneyline := some mlData,
           spread := some { atsData with
             spread_value? := some (jsOrString atsData.spread_value? "-3.5") } }
  | .resolveErr _ g => some { game := g.game, error := true }

/-- Running a schedule of click/resolve events from an empty slot. -/
def pickRun (es : List PickEvent) : Option ActivePick :=
  es.foldl pickStep none

/-- What the card of `g` displays: the `activePick` record exactly when
`activePick.game === g.game` (the `isActive` guard of the render). -/
def displayedOn (g : Game) (ap : Option ActivePick) : Option ActivePick :=
  match ap with
  | none => none
  | some p => if p.game = g.game then some p else none

/-! ### `analyzePick` of `src/unnamed/part_001` (claim C4)

In this variant analysis results live inside the games list
(`games[i].analysis`), merged in with
`setGames(prev => prev.map(g => g.id === game.id
? { ...g, analysis: data } : g))`, and the Analyze button of every card
is `disabled={loading}` — the odds-feed loading flag — with no per-game
pending guard of any kind. -/

/-- A game record as the `part_001` variant stores it: the feed list
item plus the `analysis` field that `analyzePick` merges in. -/
structure P1Game where
  id : Nat
  home_team : String
  away_team : String
  home_odds : Int
  away_odds : Int
  analysis : Option PickJson
deriving Repr, DecidableEq

/-- State touched by `analyzePick` of `src/unnamed/part_001` (lines
65–89): the games list, the shared error message, and the odds-feed
`loading` flag, which is the only thing that disables the Analyze
button; `dispatched` records, in order, the game ids for which an
`/analyze` request has been issued. -/
structure P1PickState where
  loading : Bool
  games : List P1Game
  error : Option String
  dispatched : List Nat
deriving Repr, DecidableEq

/-- Events on that state: a click of the Analyze button on the card of
`g`, and the settling of one previously dispatched request.  The
`dispatch` tag on a resolution records which click issued the request;
the code has no access to it and applies resolutions purely in arrival
order. -/
inductive P1PickEvent where
  | clickAnalyze (g : P1Game)
  | resolveOk (dispatch : Nat) (id : Nat) (d : PickJson)
  | resolveErr (dispatch : Nat)
deriving Repr, DecidableEq

/-- One step of `analyzePick`: a click dispatches a request unless the
feed is loading (`disabled={loading}`) — in particular a second click
on the same card while its request is still in flight dispatches a
concurrent duplicate; a successful resolution merges its payload into
every game whose `id` equals the dispatched id; a rejected request sets
the shared error message. -/
def p1AnalyzeStep (s : P1PickState) (e : P1PickEvent) : P1PickState :=
  match e with
  | .clickAnalyze g =>
    if s.loading then s
    else { s with dispatched := s.dispatched ++ [g.id] }
  | .resolveOk _ id d =>
    { s with
      games := s.games.map
        (fun g => if g.id = id then { g with analysis := some d } else g) }
  | .resolveErr _ =>
    { s with error := some "Failed to analyze pick." }

/-- Running a schedule of `analyzePick` events from a state. -/
def p1AnalyzeRun (s : P1PickState) (es : List P1PickEvent) : P1PickState :=
  es.foldl p1AnalyzeStep s

/-! ### Render helpers of `src/unnamed/part_000` (claim C7) -/

/-- JS truthiness of an optional string: `undefined` and `""` are
falsy. -/
def jsTruthyStr (s : Option String) : Bool :=
  match s with
  | none => false
  | some t => t != ""

/-- JS `Number.prototype.toFixed(1)` on an exact rational: round the
magnitude to the nearest tenth, ties away from zero, and print one
digit after the point. -/
def toFixed1 (q : ℚ) : String :=
  (if q < 0 then "-" else "")
    ++ toString (⌊|q| * 10 + 1 / 2⌋ / 10) ++ "."
    ++ toString (⌊|q| * 10 + 1 / 2⌋ % 10)

/-- The ATS pick text of the `part_000` render (lines 149–153):
`activePick.spread?.error ? "N/A" : activePick.spread?.pick || "N/A"`. -/
def atsPickText_part000 (sp : Option PickJson) : String :=
  match sp with
  | none => "N/A"
  | some p => if jsTruthyStr p.error? then "N/A" else jsOrString p.pick? "N/A"

/-- The moneyline pick text of the `part_000` render:
`activePick.moneyline?.pick || "N/A"`. -/
def mlPickText_part000 (ml : Option PickJson) : String :=
  match ml with
  | none => "N/A"
  | some p => jsOrString p.pick? "N/A"

/-- The moneyline confidence text of the `part_000` render:
`activePick.moneyline?.confidence ?
\x60${(activePick.moneyline.confidence * 100).toFixed(1)}%\x60 : "—"`
(a JS number is falsy exactly when it is 0). -/
def mlConfText_part000 (ml : Option PickJson) : String :=
  match ml with
  | none => "—"
  | some p =>
    match p.confidence? with
    | none => "—"
    | some c => if c = 0 then "—" else toFixed1 (c * 100) ++ "%"

/-- Whether the `part_000` render shows the inline error banner for the
active card: `isActive && activePick.error`.  The frontend variant uses
the same condition, so this definition is shared. -/
def errorBannerShown_part000 (ap : ActivePick) : Bool :=
  ap.error

/-- The ATS pick text of the `src/frontend/srcv4/App.jsx` render (line
250): `activePick.spread?.pick || "N/A"`. -/
def atsPickText_frontend (sp : Option PickJson) : String :=
  match sp with
  | none => "N/A"
  | some p => jsOrString p.pick? "N/A"

/-! ### The per-card edge computation (claim C10)

`src/frontend/srcv4/App.jsx` lines 180–187 (identically
`src/unnamed/part_002` lines 156–163): on every render of a card the
code draws `modelConf = Math.random() * 0.2 + 0.4` afresh and derives
the displayed edge and the UPSET ALERT badge from it.  We model the
random sample as an explicit rational parameter in `[0, 1)`. -/

/-- JS `Math.round`: floor of the argument plus one half. -/
def jsMathRound (q : ℚ) : ℤ :=
  ⌊q + 1 / 2⌋

/-- The implied home probability computed in the render:
`g.home_odds > 0 ? 100/(g.home_odds+100)
: Math.abs(g.home_odds)/(Math.abs(g.home_odds)+100)`. -/
def impliedHome (g : Game) : ℚ :=
  if g.home_odds > 0 then 100 / ((g.home_odds : ℚ) + 100)
  else |(g.home_odds : ℚ)| / (|(g.home_odds : ℚ)| + 100)

/-- `modelConf = Math.random() * 0.2 + 0.4`, with the random sample
made explicit. -/
def modelConf (rand : ℚ) : ℚ :=
  rand * (2 / 10) + 4 / 10

/-- The displayed edge:
`Math.round((modelConf * 100 - impliedHome * 100) * 100) / 100`. -/
def edge (g : Game) (rand : ℚ) : ℚ :=
  (jsMathRound ((modelConf rand * 100 - impliedHome g * 100) * 100) : ℚ) / 100

/-- The UPSET ALERT badge condition: `edge >= 3`. -/
def upset (g : Game) (rand : ℚ) : Bool :=
  edge g rand ≥ 3

/-! ### Backend base URLs (claim C9) -/

/-- `API_BASE` of `src/srcv4/App.jsx` line 6:
`import.meta.env.VITE_API_BASE || "https://lockbox-backend-tcuv.onrender.com"`. -/
def API_BASE_srcv4 (envVITE_API_BASE : Option String) : String :=
  jsOrString envVITE_API_BASE "https://lockbox-backend-tcuv.onrender.com"

/-- `API_BASE` of `src/frontend/srcv4/App.jsx` line 13 (identically
`src/unnamed/part_002` line 12): a hard-coded constant, no environment
lookup at all. -/
def API_BASE_frontend : String :=
  "https://lockbox-backend-tcuv.onrender.com"

/-- `API_URL` of `src/unnamed/part_001` line 14:
`import.meta.env.VITE_API_URL || "https://lockbox-backend.onrender.com"`. -/
def API_URL_part001 (envVITE_API_URL : Option String) : String :=
  jsOrString envVITE_API_URL "https://lockbox-backend.onrender.com"

/-- `API_BASE` of `src/unnamed/part_000` line 5: hard-coded localhost. -/
def API_BASE_part000 : String :=
  "http://127.0.0.1:8000"

/-! ### Concrete fixtures used by the theorems -/

/-- The reference game of the spec scenario (section 8). -/
def gRef : Game :=
  { game := "A @ B", home_team := "B", away_team := "A",
    home_odds := -150, away_odds := 130,
    home_spread := some (-(7 / 2)), away_spread := some (7 / 2),
    commence := "2024-01-01T18:00:00Z" }

/-- A game without a spread line (`home_spread` null/absent). -/
def gNoSpread : Game :=
  { game := "C @ D", home_team := "D", away_team := "C",
    home_odds := -120, away_odds := 105,
    home_spread := none, away_spread := none,
    commence := "2024-01-02T18:00:00Z" }

/-- A game with a positive home moneyline, used for the edge fixture. -/
def gUnderdog : Game :=
  { game := "E @ F", home_team := "F", away_team := "E",
    home_odds := 130, away_odds := -150,
    home_spread := some (3 / 2), away_spread := some (-(3 / 2)),
    commence := "2024-01-03T18:00:00Z" }

/-- The moneyline response of the spec scenario:
`{pick: "B", confidence: 0.62, expected_value: 0.04}`. -/
def mlScenario : PickJson :=
  { pick? := some "B", confidence? := some (62 / 100),
    expected_value? := some (4 / 100), spread_value? := none,
    error? := none }

/-- The spread response of the spec scenario: `{error: "No spread
market"}`. -/
def spScenario : PickJson :=
  { pick? := none, confidence? := none, expected_value? := none,
    spread_value? := none, error? := some "No spread market" }

/-- A successful spread response, used where one market succeeds and
the other fails. -/
def spOk : PickJson :=
  { pick? := some "B -3.5", confidence? := some (55 / 100),
    expected_value? := some (3 / 100), spread_value? := some "-3.5",
    error? := none }

/-- The `part_001` game fixture (feed item, no analysis yet). -/
def g1_part001 : P1Game :=
  { id := 1, home_team := "B", away_team := "A",
    home_odds := -150, away_odds := 130, analysis := none }

/-- The response of the FIRST of two duplicate dispatches for the same
game (the superseded one, arriving last in the race schedules). -/
def pickFirst : PickJson :=
  { pick? := some "A", confidence? := none, expected_value? := none,
    spread_value? := none, error? := none }

/-- The response of the SECOND of two duplicate dispatches for the same
game (the newest one, arriving first in the race schedules). -/
def pickSecond : PickJson :=
  { pick? := some "B", confidence? := none, expected_value? := none,
    spread_value? := none, error? := none }

/-! ## Theorems -/

/-- Helper: the scenario confidence 0.62 renders as "62.0%". -/
theorem mlConfText_scenario : mlConfText_part000 (some mlScenario) = "62.0%" := by
  show (if (62 / 100 : ℚ) = 0 then "—"
        else toFixed1 ((62 / 100 : ℚ) * 100) ++ "%") = "62.0%"
  rw [if_neg (by norm_num), show ((62 : ℚ) / 100) * 100 = 62 from by norm_num]
  simp only [toFixed1]
  rw [if_neg (by norm_num),
      show ⌊|(62 : ℚ)| * 10 + 1 / 2⌋ = 620 from by norm_num]
  rfl

/-- Helper: the edge of the fixture game at random sample 0. -/
theorem edge_gUnderdog_at_zero : edge gUnderdog 0 = -(87 / 25) := by
  norm_num [edge, jsMathRound, modelConf, impliedHome, gUnderdog]

/-- Helper: the edge of the fixture game at random sample 9/10. -/
theorem edge_gUnderdog_at_nine_tenths : edge gUnderdog (9 / 10) = 363 / 25 := by
  norm_num [edge, jsMathRound, modelConf, impliedHome, gUnderdog]

/-- C1 (counterexample): in the `src/srcv4/App.jsx` odds feed two
refreshes are issued in quick succession; the response of the second
call (carrying `[gNoSpread]`) arrives first and the response of the
first call (carrying `[gRef]`) arrives after it.  The final visible
game list is `[gRef]` — the result of the EARLIER call — and the two
payloads differ, so the late arrival of the superseded request was not
a no-op and the claim fails on this variant. -/
theorem C1_counterexample :
    ngRun { games := [], loading := false, error := "" }
      [NGEvent.call 1, NGEvent.call 2,
       NGEvent.respond 2 (OddsOutcome.http 200 (some { games? := some [gNoSpread] })),
       NGEvent.respond 1 (OddsOutcome.http 200 (some { games? := some [gRef] }))]
      = { games := [gRef], loading := false, error := "" }
    ∧ decide (gRef = gNoSpread) = false := by
  constructor
  · rfl
  · decide

/-- C1 (amended): the `src/unnamed/part_001` feed drops, rather than
coalesces or supersedes, a refresh issued while one is in flight: a
`fetchOdds()` invocation with `inFlight` set is a no-op, the late
response of an aborted request changes neither the list nor the error
message, and under the two-quick-refreshes schedule exactly one request
is issued and its body is what the state holds; the unguarded
`src/srcv4/App.jsx` feed has no such protection (see the
counterexample). -/
theorem C1_guarded_feed :
    (∀ s : P1State, s.inFlight = true → p1step s P1Event.refresh = s)
    ∧ (∀ (s : P1State) (id : Nat) (r : OddsOutcome),
        id ∈ s.issued → id ∈ s.aborted →
        p1step s (P1Event.respond id r)
          = { s with loading := false, inFlight := false })
    ∧ p1run [P1Event.refresh, P1Event.refresh, P1Event.timerFire,
             P1Event.respond 0 (OddsOutcome.http 200 (some { games? := some [gRef] }))]
        = { inFlight := false, timer := false, ctrl := some 0, nextId := 1,
            issued := [0], aborted := [], games := some { games? := some [gRef] },
            error := none, loading := false } := by
  refine ⟨?_, ?_, ?_⟩
  · intro s h
    simp [p1step, h]
  · intro s id r h1 h2
    simp [p1step, h1, h2]
  · rfl

/-- C1 (witness for the amended theorem): the guarded-feed lemmas at a
concrete state with a fetch in flight and a concrete aborted request. -/
theorem C1_guarded_feed_witness :
    p1step { p1init with inFlight := true } P1Event.refresh
      = { p1init with inFlight := true }
    ∧ p1step { p1init with inFlight := true, issued := [0], aborted := [0] }
        (P1Event.respond 0 OddsOutcome.networkError)
      = { p1init with
            inFlight := false, issued := [0], aborted := [0],
            loading := false } :=
  ⟨C1_guarded_feed.1 { p1init with inFlight := true } rfl,
   C1_guarded_feed.2.1 { p1init with inFlight := true, issued := [0], aborted := [0] }
     0 OddsOutcome.networkError (List.mem_singleton.mpr rfl)
     (List.mem_singleton.mpr rfl)⟩

/-- C2 (counterexample): a failed moneyline request and a successful
spread request for the reference game collapse into an overall failure
in both `analyzeGame` variants: the stored record is
`{game, error: true}` and carries NEITHER result, where the claim
demands the spread result to still be present. -/
theorem C2_counterexample :
    analyzeGame_frontend gRef ReqOutcome.fail (ReqOutcome.json spOk)
      = { game := "A @ B", loading := false, error := true,
          moneyline := none, spread := none }
    ∧ analyzeGame_part000 gRef ReqOutcome.fail (ReqOutcome.json spOk)
      = { game := "A @ B", loading := false, error := true,
          moneyline := none, spread := none } := by
  constructor <;> rfl

/-- C2 (amended): the analysis is all-or-nothing.  In both variants a
failure of either market request yields `{game, error: true}` with no
market result attached; only when both requests parse are both results
stored (the frontend variant additionally defaults `spread_value` to
"-3.5"). -/
theorem C2_all_or_nothing :
    ∀ (g : Game) (mlData atsData : PickJson),
    analyzeGame_frontend g ReqOutcome.fail (ReqOutcome.json atsData)
      = { game := g.game, error := true }
    ∧ analyzeGame_frontend g (ReqOutcome.json mlData) ReqOutcome.fail
      = { game := g.game, error := true }
    ∧ analyzeGame_frontend g ReqOutcome.fail ReqOutcome.fail
      = { game := g.game, error := true }
    ∧ analyzeGame_frontend g (ReqOutcome.json mlData) (ReqOutcome.json atsData)
      = { game := g.game, loading := false, moneyline := some mlData,
          spread := some { atsData with
            spread_value? := some (jsOrString atsData.spread_value? "-3.5") } }
    ∧ analyzeGame_part000 g ReqOutcome.fail (ReqOutcome.json atsData)
      = { game := g.game, error := true }
    ∧ (∀ q : ℚ, g.home_spread = some q →
        analyzeGame_part000 g (ReqOutcome.json mlData) ReqOutcome.fail
          = { game := g.game, error := true }) := by
  intro g mlData atsData
  refine ⟨rfl, rfl, rfl, rfl, rfl, ?_⟩
  intro q hq
  simp [analyzeGame_part000, hq]

/-- C2 (witness): the amended theorem at the reference game, the
scenario moneyline response and the successful spread response. -/
theorem C2_all_or_nothing_witness :
    analyzeGame_part000 gRef (ReqOutcome.json mlScenario) ReqOutcome.fail
      = { game := gRef.game, error := true } :=
  (C2_all_or_nothing gRef mlScenario spOk).2.2.2.2.2 (-(7 / 2)) rfl

/-- C3 (counterexample): `gNoSpread` carries no spread value, yet the
`analyzeGame` of `src/frontend/srcv4/App.jsx` still issues a spread
request (it always requests both markets via `Promise.all`), so the
claim fails on that variant. -/
theorem C3_counterexample :
    gNoSpread.home_spread = none
    ∧ analyzeGame_frontend_requests gNoSpread = [Market.moneyline, Market.spread] := by
  constructor <;> rfl

/-- C3 (amended): in `src/unnamed/part_000`, a game with a null or
absent spread never triggers a spread request, and a game with a spread
triggers exactly the two requests (when the moneyline await does not
throw; a thrown moneyline request jumps to catch, so only one request
is issued).  In `src/frontend/srcv4/App.jsx` both requests are always
issued, regardless of the spread value. -/
theorem C3_requests :
    ∀ (g : Game) (mlData : PickJson),
    (g.home_spread = none →
      analyzeGame_part000_requests g (ReqOutcome.json mlData) = [Market.moneyline])
    ∧ (∀ q : ℚ, g.home_spread = some q →
        analyzeGame_part000_requests g (ReqOutcome.json mlData)
          = [Market.moneyline, Market.spread])
    ∧ analyzeGame_part000_requests g ReqOutcome.fail = [Market.moneyline]
    ∧ analyzeGame_frontend_requests g = [Market.moneyline, Market.spread] := by
  intro g mlData
  refine ⟨?_, ?_, rfl, rfl⟩
  · intro h
    simp [analyzeGame_part000_requests, h]
  · intro q hq
    simp [analyzeGame_part000_requests, hq]

/-- C3 (witness): the request lists at the two concrete games. -/
theorem C3_requests_witness :
    analyzeGame_part000_requests gNoSpread (ReqOutcome.json mlScenario)
      = [Market.moneyline]
    ∧ analyzeGame_part000_requests gRef (ReqOutcome.json mlScenario)
      = [Market.moneyline, Market.spread] :=
  ⟨(C3_requests gNoSpread mlScenario).1 rfl,
   (C3_requests gRef mlScenario).2.1 (-(7 / 2)) rfl⟩

/-- C4 (counterexample): re-triggering analysis for a game whose
request is still pending is neither a no-op nor a clean supersession.
In `part_001`, with the feed idle, two clicks on the same card both
dispatch (dispatched = [1, 1]); the second dispatch resolves first and
the first dispatch resolves last, so the final visible analysis is
`pickFirst` — the superseded result — and the two payloads differ.  In
the frontend variant, clicking another card re-enables the first card
(the slot no longer holds that game), so a third click dispatches a
duplicate for the reference game while its first request is in flight;
with the second dispatch resolving first, the first dispatch ends up
visible. -/
theorem C4_counterexample :
    p1AnalyzeRun
      { loading := false, games := [g1_part001], error := none,
        dispatched := [] }
      [P1PickEvent.clickAnalyze g1_part001,
       P1PickEvent.clickAnalyze g1_part001,
       P1PickEvent.resolveOk 2 1 pickSecond,
       P1PickEvent.resolveOk 1 1 pickFirst]
      = { loading := false,
          games := [{ g1_part001 with analysis := some pickFirst }],
          error := none, dispatched := [1, 1] }
    ∧ decide (pickFirst = pickSecond) = false
    ∧ pickRun
        [PickEvent.click gRef, PickEvent.click gNoSpread,
         PickEvent.click gRef,
         PickEvent.resolveOk 2 gRef pickSecond spOk,
         PickEvent.resolveOk 1 gRef pickFirst spOk]
      = some { game := "A @ B", loading := false,
               moneyline := some pickFirst,
               spread := some { spOk with spread_value? := some "-3.5" } } := by
  refine ⟨rfl, ?_, rfl⟩
  decide

/-- C4 (amended): every result applied to state IS attached under the
identity of the game of the dispatching call — the frontend stamps the
closure game and shows the slot only on the card with the matching
stamp, whatever was clicked last, and `part_001` merges a payload only
into games whose `id` equals the dispatched id — so a result is never
displayed on the wrong card.  But re-triggering analysis for a game
with a pending request is only prevented in the narrow case where that
game currently occupies the frontend slot as pending; a `part_001`
click dispatches whenever the feed is idle, so duplicate concurrent
dispatches for one game are possible and resolve in arrival order (see
the counterexample). -/
theorem C4_keyed_by_game :
    (∀ (es : List PickEvent) (g : Game) (p : ActivePick),
      displayedOn g (pickRun es) = some p → p.game = g.game)
    ∧ (∀ (ap : ActivePick) (g : Game),
        ap.game = g.game → ap.loading = true →
        pickStep (some ap) (PickEvent.click g) = some ap)
    ∧ (∀ (ap : Option ActivePick) (g : Game) (n : Nat)
        (mlData atsData : PickJson),
        pickStep ap (PickEvent.resolveOk n g mlData atsData)
          = some { game := g.game, loading := false, moneyline := some mlData,
                   spread := some { atsData with
                     spread_value? := some (jsOrString atsData.spread_value? "-3.5") } }
        ∧ pickStep ap (PickEvent.resolveErr n g)
          = some { game := g.game, error := true })
    ∧ (∀ (s : P1PickState) (g : P1Game),
        s.loading = false →
        p1AnalyzeStep s (P1PickEvent.clickAnalyze g)
          = { s with dispatched := s.dispatched ++ [g.id] })
    ∧ (∀ (s : P1PickState) (di id : Nat) (d : PickJson),
        p1AnalyzeStep s (P1PickEvent.resolveOk di id d)
          = { s with
              games := s.games.map
                (fun g => if g.id = id then { g with analysis := some d }
                          else g) }) := by
  refine ⟨?_, ?_, ?_, ?_, ?_⟩
  · intro es g p h
    cases hr : pickRun es with
    | none => simp [displayedOn, hr] at h
    | some q =>
      rw [hr] at h
      have h2 : (if q.game = g.game then some q else none) = some p := h
      by_cases hb : q.game = g.game
      · rw [if_pos hb] at h2
        injection h2 with h3
        subst h3
        exact hb
      · rw [if_neg hb] at h2
        exact Option.noConfusion h2
  · intro ap g h1 h2
    simp [pickStep, clickEnabled, h1, h2]
  · intro ap g n mlData atsData
    exact ⟨rfl, rfl⟩
  · intro s g h
    simp [p1AnalyzeStep, h]
  · intro s di id d
    rfl

/-- C4 (witness): the amended invariants at concrete inputs — an error
resolution for the reference game is displayed on the reference card
with the matching stamp; a click on a card whose pending record
occupies the slot leaves the slot unchanged; and a `part_001` click
with the feed idle dispatches. -/
theorem C4_keyed_by_game_witness :
    ({ game := "A @ B", error := true } : ActivePick).game = gRef.game
    ∧ pickStep (some { game := "A @ B", loading := true })
        (PickEvent.click gRef)
      = some { game := "A @ B", loading := true }
    ∧ p1AnalyzeStep
        { loading := false, games := [g1_part001], error := none,
          dispatched := [] }
        (P1PickEvent.clickAnalyze g1_part001)
      = { loading := false, games := [g1_part001], error := none,
          dispatched := [1] } :=
  ⟨C4_keyed_by_game.1 [PickEvent.resolveErr 1 gRef] gRef
     { game := "A @ B", error := true } (by decide),
   C4_keyed_by_game.2.1 { game := "A @ B", loading := true } gRef rfl rfl,
   C4_keyed_by_game.2.2.2.1
     { loading := false, games := [g1_part001], error := none,
       dispatched := [] } g1_part001 rfl⟩

/-- C5 (counterexample): a 2xx response whose body has no `games` key,
applied by `fetchOdds` of `src/srcv4/App.jsx`, leaves the previous list
in place and sets the error message "No games returned from backend."
instead of setting the list to the empty array; and the single request
of the `part_001` variant does not go to the `/odds/{code}` path. -/
theorem C5_counterexample :
    fetchOdds_srcv4 { games := [gRef], loading := false, error := "" }
      (OddsOutcome.http 200 (some { games? := none }))
      = { games := [gRef], loading := false,
          error := "No games returned from backend." }
    ∧ decide (fetchOdds_part001_url "americanfootball_nfl"
        = "/odds/americanfootball_nfl") = false := by
  constructor
  · rfl
  · decide

/-- C5 (amended): each `fetchOdds` call issues exactly one GET, to
`/odds/{sport}` in the `srcv4`, frontend, `part_000` and `part_002`
variants and to `/odds?sport={sport}` in `part_001`.  On a parsed body
the frontend/`part_000`/`part_002` variants set the list to exactly the
`games` array, with an absent key treated as the empty list; the
`srcv4` variant sets the list to the `games` array when the key is
present but treats an absent key as an error, leaving the list
unchanged. -/
theorem C5_games_array :
    ∀ (sport : String) (st : Nat) (gs : List Game)
      (s : FrontendOddsState) (s4 : SrcV4State),
    fetchOdds_srcv4_requests sport = ["/odds/" ++ sport]
    ∧ (fetchOdds_srcv4_requests sport).length = 1
    ∧ fetchOdds_frontend s (OddsOutcome.http st (some { games? := some gs }))
      = { games := gs, loading := false, userMessage := s.userMessage }
    ∧ fetchOdds_frontend s (OddsOutcome.http st (some { games? := none }))
      = { games := [], loading := false, userMessage := s.userMessage }
    ∧ (resOk st = true →
        fetchOdds_srcv4 s4 (OddsOutcome.http st (some { games? := some gs }))
          = { games := gs, loading := false, error := "" })
    ∧ (resOk st = true →
        fetchOdds_srcv4 s4 (OddsOutcome.http st (some { games? := none }))
          = { games := s4.games, loading := false,
              error := "No games returned from backend." })
    ∧ fetchOdds_part001_url sport = "/odds?sport=" ++ sport := by
  intro sport st gs s s4
  refine ⟨rfl, rfl, rfl, rfl, ?_, ?_, rfl⟩
  · intro h
    simp [fetchOdds_srcv4, applyOdds_srcv4, h]
  · intro h
    simp [fetchOdds_srcv4, applyOdds_srcv4, h]

/-- C5 (witness): the amended behaviour at a concrete 200 response. -/
theorem C5_games_array_witness :
    fetchOdds_srcv4 { games := [], loading := false, error := "" }
      (OddsOutcome.http 200 (some { games? := some [gRef] }))
      = { games := [gRef], loading := false, error := "" } :=
  (C5_games_array "americanfootball_nfl" 200 [gRef]
    { games := [], loading := false, userMessage := none }
    { games := [], loading := false, error := "" }).2.2.2.2.1 rfl

/-- C6 (counterexample): a network error in the odds fetch of
`src/frontend/srcv4/App.jsx` leaves the state with no user-visible
message at all (the catch only logs), and the `part_000` variant
empties the list, also without a message — where the claim demands a
user-visible error message to be set. -/
theorem C6_counterexample :
    fetchOdds_frontend { games := [gRef], loading := false, userMessage := none }
      OddsOutcome.networkError
      = { games := [gRef], loading := false, userMessage := none }
    ∧ fetchOdds_part000 { games := [gRef], loading := false, userMessage := none }
        OddsOutcome.networkError
      = { games := [], loading := false, userMessage := none } :=
  ⟨rfl, rfl⟩

/-- C6 (amended): every failure outcome is absorbed (all the transition
functions are total, so nothing escapes the component): the `srcv4`
variant preserves the list and sets the message "Failed to load odds.
Try again." on a network error, a malformed body or a non-2xx status;
the frontend variant preserves the list and sets no message; the
`part_000` variant empties the list and sets no message. -/
theorem C6_failure_handling :
    ∀ (s4 : SrcV4State) (s : FrontendOddsState) (st : Nat) (b : Option OddsBody),
    fetchOdds_srcv4 s4 OddsOutcome.networkError
      = { games := s4.games, loading := false,
          error := "Failed to load odds. Try again." }
    ∧ fetchOdds_srcv4 s4 (OddsOutcome.http st none)
      = { games := s4.games, loading := false,
          error := "Failed to load odds. Try again." }
    ∧ (resOk st = false →
        fetchOdds_srcv4 s4 (OddsOutcome.http st b)
          = { games := s4.games, loading := false,
              error := "Failed to load odds. Try again." })
    ∧ fetchOdds_frontend s OddsOutcome.networkError
      = { games := s.games, loading := false, userMessage := s.userMessage }
    ∧ fetchOdds_frontend s (OddsOutcome.http st none)
      = { games := s.games, loading := false, userMessage := s.userMessage }
    ∧ fetchOdds_part000 s OddsOutcome.networkError
      = { games := [], loading := false, userMessage := s.userMessage }
    ∧ fetchOdds_part000 s (OddsOutcome.http st none)
      = { games := [], loading := false, userMessage := s.userMessage } := by
  intro s4 s st b
  refine ⟨rfl, ?_, ?_, rfl, rfl, rfl, rfl⟩
  · by_cases h : resOk st = true <;>
      simp [fetchOdds_srcv4, applyOdds_srcv4, h]
  · intro h
    simp [fetchOdds_srcv4, applyOdds_srcv4, h]

/-- C6 (witness): the `srcv4` failure handling at a concrete 500
response with an unparseable body. -/
theorem C6_failure_handling_witness :
    fetchOdds_srcv4 { games := [gRef], loading := false, error := "" }
      (OddsOutcome.http 500 none)
      = { games := [gRef], loading := false,
          error := "Failed to load odds. Try again." } :=
  (C6_failure_handling { games := [gRef], loading := false, error := "" }
    { games := [], loading := false, userMessage := none } 500 none).2.2.1 rfl

/-- C7 (confirmed): in the `part_000` variant, the spec scenario —
moneyline `{pick: "B", confidence: 0.62, expected_value: 0.04}` and
spread `{error: "No spread market"}` — yields a ready record whose
moneyline renders pick "B" at "62.0%" and whose ATS section renders
"N/A"; the overall error banner is not shown, and more generally no
parsed spread body (in particular an `{error}` body) ever sets the
error flag, in either variant; the frontend render also shows "N/A"
for the `{error}` spread. -/
theorem C7_market_unavailable :
    analyzeGame_part000 gRef (ReqOutcome.json mlScenario) (ReqOutcome.json spScenario)
      = { game := "A @ B", loading := false, moneyline := some mlScenario,
          spread := some spScenario }
    ∧ errorBannerShown_part000
        (analyzeGame_part000 gRef (ReqOutcome.json mlScenario)
          (ReqOutcome.json spScenario)) = false
    ∧ atsPickText_part000 (some spScenario) = "N/A"
    ∧ mlPickText_part000 (some mlScenario) = "B"
    ∧ mlConfText_part000 (some mlScenario) = "62.0%"
    ∧ (∀ spData : PickJson,
        errorBannerShown_part000
          (analyzeGame_part000 gRef (ReqOutcome.json mlScenario)
            (ReqOutcome.json spData)) = false)
    ∧ (∀ spData : PickJson,
        errorBannerShown_part000
          (analyzeGame_frontend gRef (ReqOutcome.json mlScenario)
            (ReqOutcome.json spData)) = false)
    ∧ atsPickText_frontend
        (analyzeGame_frontend gRef (ReqOutcome.json mlScenario)
          (ReqOutcome.json spScenario)).spread = "N/A" := by
  refine ⟨rfl, rfl, rfl, rfl, mlConfText_scenario, ?_, ?_, rfl⟩
  · intro spData
    rfl
  · intro spData
    rfl

/-- C8 (confirmed): in both `analyzeGame` variants the action trace
starts with the synchronous pending write, and every network request
occurs strictly after it. -/
theorem C8_pending_first :
    ∀ (g : Game) (mlOut : ReqOutcome) (n : Nat) (m : Market),
    (analyzeGame_part000_trace g mlOut).head? = some AnalyzeStep.setPending
    ∧ (analyzeGame_frontend_trace g).head? = some AnalyzeStep.setPending
    ∧ ((analyzeGame_part000_trace g mlOut)[n]? = some (AnalyzeStep.request m)
        → 0 < n)
    ∧ ((analyzeGame_frontend_trace g)[n]? = some (AnalyzeStep.request m)
        → 0 < n) := by
  intro g mlOut n m
  refine ⟨rfl, rfl, ?_, ?_⟩ <;>
  · intro h
    cases n with
    | zero => simp [analyzeGame_part000_trace, analyzeGame_frontend_trace] at h
    | succ k => exact Nat.succ_pos k

/-- C8 (witness): the trace shape at the reference game — the write at
index 0 is the pending write and the moneyline request sits at index
1. -/
theorem C8_pending_first_witness :
    (analyzeGame_part000_trace gRef (ReqOutcome.json mlScenario)).head?
      = some AnalyzeStep.setPending
    ∧ 0 < 1 :=
  ⟨(C8_pending_first gRef (ReqOutcome.json mlScenario) 1 Market.moneyline).1,
   (C8_pending_first gRef (ReqOutcome.json mlScenario) 1 Market.moneyline).2.2.1
     rfl⟩

/-- C9 (counterexample): with the environment setting absent, the
`srcv4` and `part_001` variants silently fall back to baked-in
`onrender.com` production URLs, and the frontend variant uses a
baked-in `onrender.com` URL without consulting the environment at all
— where the claim demands a required setting with no baked-in
default. -/
theorem C9_counterexample :
    API_BASE_srcv4 none = "https://lockbox-backend-tcuv.onrender.com"
    ∧ API_BASE_frontend = "https://lockbox-backend-tcuv.onrender.com"
    ∧ API_URL_part001 none = "https://lockbox-backend.onrender.com" :=
  ⟨rfl, rfl, rfl⟩

/-- C9 (amended): the `srcv4` and `part_001` variants use the
environment setting when it is a non-empty string and otherwise fall
back to hard-coded `onrender.com` URLs; the frontend and `part_002`
variants hard-code the `onrender.com` URL unconditionally; `part_000`
hard-codes localhost. -/
theorem C9_base_url :
    ∀ u : String,
    (u ≠ "" → API_BASE_srcv4 (some u) = u)
    ∧ (u ≠ "" → API_URL_part001 (some u) = u)
    ∧ API_BASE_srcv4 none = "https://lockbox-backend-tcuv.onrender.com"
    ∧ API_URL_part001 none = "https://lockbox-backend.onrender.com"
    ∧ API_BASE_frontend = "https://lockbox-backend-tcuv.onrender.com"
    ∧ API_BASE_part000 = "http://127.0.0.1:8000" := by
  intro u
  refine ⟨?_, ?_, rfl, rfl, rfl, rfl⟩ <;>
  · intro h
    simp [API_BASE_srcv4, API_URL_part001, jsOrString, h]

/-- C9 (witness): a concrete non-empty setting is respected by both
environment-reading variants. -/
theorem C9_base_url_witness :
    API_BASE_srcv4 (some "http://localhost:9999") = "http://localhost:9999"
    ∧ API_URL_part001 (some "http://localhost:9999") = "http://localhost:9999" :=
  ⟨(C9_base_url "http://localhost:9999").1 (by decide),
   (C9_base_url "http://localhost:9999").2.1 (by decide)⟩

/-- C10 (confirmed): the displayed edge and the UPSET ALERT badge of a
card depend on the fresh random sample drawn on each render: for the
same fixed game, the sample 0 gives edge -87/25 with no badge while the
sample 9/10 (both legal values of Math.random) gives edge 363/25 with
the badge — two renders of the identical game list can disagree. -/
theorem C10_random_edge :
    edge gUnderdog 0 = -(87 / 25)
    ∧ edge gUnderdog (9 / 10) = 363 / 25
    ∧ upset gUnderdog 0 = false
    ∧ upset gUnderdog (9 / 10) = true
    ∧ edge gUnderdog 0 < edge gUnderdog (9 / 10)
    ∧ (0 : ℚ) ≤ 0 ∧ (0 : ℚ) < 1 ∧ (0 : ℚ) ≤ 9 / 10 ∧ (9 / 10 : ℚ) < 1 := by
  refine ⟨edge_gUnderdog_at_zero, edge_gUnderdog_at_nine_tenths, ?_, ?_, ?_, ?_⟩
  · simp only [upset, edge_gUnderdog_at_zero]
    rw [decide_eq_false_iff_not]
    norm_num
  · simp only [upset, edge_gUnderdog_at_nine_tenths]
    rw [decide_eq_true_eq]
    norm_num
  · rw [edge_gUnderdog_at_zero, edge_gUnderdog_at_nine_tenths]
    norm_num
  · norm_num

end Lockbox
